import Mathlib

/-!
Verification of the tcp text-to-MIDI repository.

Shallow embedding of the Rust sources:
* `TextToMidi` embeds src/text_to_midi.rs (the text compiler `Sheet` and the
  action reducer `Sheet::process`).
* `NoteRs` embeds src/note.rs (the `Note` enum with MIDI semitone
  discriminants and `Note::to_midi`).
* `TimeStateMod` embeds src/time_state.rs (`TimeSignature`, `TimeState`,
  the tempo conversions `mspqn_from_bpm` and `bpm`).
* `MidiActionMod` embeds src/midi_action.rs (`MidiAction::push_as_event`).
* `PlayMod` embeds src/play.rs (`prepare_connection`, `play_file`), with
  device interaction modelled as an explicit effect trace.

Machine integers are modelled as `Nat` with explicit `% 2^w` where the code
performs a lossy conversion, and checked (panicking) arithmetic is modelled
with `Option` where a panic is reachable.  The random number generator
(`rand::thread_rng`) is modelled as an oracle stream `rand : Nat → Nat`
together with a draw counter; a call `gen_range(lo..=hi)` consumes one draw
`r` and yields `lo + r % (hi - lo + 1)`.  No claim depends on the
distribution of the draws.
-/

namespace TextToMidi

/-- The `Note` enum declared locally in src/text_to_midi.rs.  It carries no
explicit discriminants, so `note as u8` yields the declaration order
Do=0, Re=1, Mi=2, Fa=3, Sol=4, La=5, Si=6, Pause=7. -/
inductive Note where
  | Do
  | Re
  | Mi
  | Fa
  | Sol
  | La
  | Si
  | Pause
deriving DecidableEq

/-- Rust `note as u8` for the text_to_midi.rs `Note` (default discriminants). -/
def Note.toU8 : Note → Nat
  | .Do => 0
  | .Re => 1
  | .Mi => 2
  | .Fa => 3
  | .Sol => 4
  | .La => 5
  | .Si => 6
  | .Pause => 7

/-- Rust `Note::from_char` of src/text_to_midi.rs. -/
def Note.from_char (ch : Char) : Option Note :=
  if ch = 'A' ∨ ch = 'a' then some Note.La
  else if ch = 'B' ∨ ch = 'b' then some Note.Si
  else if ch = 'C' ∨ ch = 'c' then some Note.Do
  else if ch = 'D' ∨ ch = 'd' then some Note.Re
  else if ch = 'E' ∨ ch = 'e' then some Note.Mi
  else if ch = 'F' ∨ ch = 'f' then some Note.Fa
  else if ch = 'G' ∨ ch = 'g' then some Note.Sol
  else if ch = ' ' then some Note.Pause
  else none

/-- The `State` struct of src/text_to_midi.rs (music-state snapshot). -/
structure State where
  bpm : Nat
  instrument : Nat
  octave : Nat
  volume : Nat
  note : Option Note
deriving DecidableEq

/-- Rust `State::MAX_OCTAVE`. -/
def State.MAX_OCTAVE : Nat := 12
/-- Rust `State::DEFAULT_OCTAVE`. -/
def State.DEFAULT_OCTAVE : Nat := 4
/-- Rust `State::DEFAULT_VOLUME`. -/
def State.DEFAULT_VOLUME : Nat := 100
/-- Rust `State::MAX_VOLUME`. -/
def State.MAX_VOLUME : Nat := 16383
/-- Rust `State::DEFAULT_BPM`. -/
def State.DEFAULT_BPM : Nat := 80
/-- Rust `State::MAX_BPM`. -/
def State.MAX_BPM : Nat := 255

/-- Rust `Default for State`: instrument 0, octave 4, volume 100, bpm 80, and
`note: Default::default()` which for `Option<Note>` is `None`. -/
def State.defaultState : State :=
  { bpm := State.DEFAULT_BPM
  , instrument := 0
  , octave := State.DEFAULT_OCTAVE
  , volume := State.DEFAULT_VOLUME
  , note := none }

/-- Modelled from the spec: the `MIDIaction` enum used by `Sheet::process` is
not declared under src/ (only its construction sites in text_to_midi.rs are).
The spec lists the Action variants `PlayNote`, `ChangeInstrument`,
`ChangeVolume`, `ChangeBpm`, `Pause`, `EndOfSequence`; constructor names and
payloads are taken from the construction sites in `Sheet::process`
(`ChangeBPM(u8)`, `ChangeInstrument(u8)`, `ChangeVolume(u16)`,
`Pause(bpm as u32)`, `PlayNote { bpm: u32, note: u8 }`, `EndTrack`). -/
inductive MIDIaction where
  | ChangeBPM (bpm : Nat)
  | ChangeInstrument (instrument : Nat)
  | ChangeVolume (volume : Nat)
  | Pause (bpm : Nat)
  | PlayNote (bpm : Nat) (note : Nat)
  | EndTrack
deriving DecidableEq

/-- The `Sheet` struct of src/text_to_midi.rs. -/
structure Sheet where
  bpm : Nat
  current_state : State
  states : List State
  text : List Char
deriving DecidableEq

/-- Rust `Sheet::DEFAULT_R_PLUS`. -/
def Sheet.DEFAULT_R_PLUS : Char := '東'
/-- Rust `Sheet::DEFAULT_R_MINUS`. -/
def Sheet.DEFAULT_R_MINUS : Char := '世'
/-- Rust `Sheet::DEFAULT_BPM_PLUS`. -/
def Sheet.DEFAULT_BPM_PLUS : Char := 'ß'

/-- Rust `Sheet::new`: empty snapshot list, default current state. -/
def Sheet.new (bpm : Nat) (text : List Char) : Sheet :=
  { bpm := bpm
  , current_state := State.defaultState
  , states := []
  , text := text }

/-- The vowel-toggle character set `'o' | 'O' | 'I' | 'i' | 'u' | 'U'`
matched in src/text_to_midi.rs. -/
def vowelToggle (c : Char) : Bool :=
  c = 'o' || c = 'O' || c = 'I' || c = 'i' || c = 'u' || c = 'U'

/-- Strip `pat` from the front of `s`, if it is there. -/
def stripPat : List Char → List Char → Option (List Char)
  | [], s => some s
  | _ :: _, [] => none
  | p :: ps, c :: cs => if p = c then stripPat ps cs else none

theorem stripPat_length : ∀ pat s rest : List Char,
    stripPat pat s = some rest → rest.length + pat.length = s.length := by
  intro pat
  induction pat with
  | nil =>
    intro s rest h
    simp [stripPat] at h
    simp [h]
  | cons p ps ih =>
    intro s rest h
    cases s with
    | nil => simp [stripPat] at h
    | cons c cs =>
      simp only [stripPat] at h
      by_cases hpc : p = c
      · simp [hpc] at h
        have := ih cs rest h
        simp [List.length]
        omega
      · simp [hpc] at h

/-- The scan of `str::replace`, with explicit fuel so the recursion is
structural: each step consumes at least one character, so any fuel of at
least the string's length never runs out and the fuel-exhausted arm (which
returns the remaining input unchanged) is never taken. -/
def replaceAllGo (p : Char) (ps repl : List Char) : Nat → List Char → List Char
  | _, [] => []
  | 0, s => s
  | fuel + 1, c :: cs =>
    match stripPat (p :: ps) (c :: cs) with
    | some rest => repl ++ replaceAllGo p ps repl fuel rest
    | none => c :: replaceAllGo p ps repl fuel cs

/-- Rust `str::replace`: replace every non-overlapping occurrence of the
(non-empty) pattern `p :: ps`, scanning left to right. -/
def replaceAll (p : Char) (ps repl s : List Char) : List Char :=
  replaceAllGo p ps repl s.length s

/-- The vowel-rewriting scan inside `Sheet::map_substring_to_char`: walking
the characters with `prev_char` carried along, a vowel-toggle character that
immediately follows a note character is replaced by that note character
(`aux.push(prev_char)`); in every step `prev_char` becomes the scanned
character. -/
def echoScan (prev : Char) : List Char → List Char
  | [] => []
  | c :: cs =>
    if (Note.from_char prev).isSome && vowelToggle c
    then prev :: echoScan c cs
    else c :: echoScan c cs

/-- Rust `Sheet::map_substring_to_char`: substitute the three multi-character
tokens by their marker characters, then run the vowel-rewriting scan with
`prev_char` initialised to `'\0'`. -/
def Sheet.map_substring_to_char (sh : Sheet) : List Char :=
  echoScan (Char.ofNat 0)
    (replaceAll 'R' ['-'] [Sheet.DEFAULT_R_MINUS]
      (replaceAll 'R' ['+'] [Sheet.DEFAULT_R_PLUS]
        (replaceAll 'B' ['P', 'M', '+'] [Sheet.DEFAULT_BPM_PLUS] sh.text)))

/-- Append `s` as the new current state and push it onto `states`
(the common tail `self.states.push(self.current_state)` of
`Sheet::parse_char`). -/
def Sheet.pushState (sh : Sheet) (s : State) : Sheet :=
  { sh with current_state := s, states := sh.states ++ [s] }

/-- Rust `self.current_state.note = None`, the first mutation in the non-note
branch of `Sheet::parse_char`. -/
def State.clearNote (s : State) : State := { s with note := none }

/-- The note drawn by `rng.gen::<Note>()` in the `'?'` arm, via
`gen_range(0..=6)` and the `Distribution<Note>` match of
src/text_to_midi.rs. -/
def randomNote (r : Nat) : Note :=
  if r % 7 = 0 then Note.Do
  else if r % 7 = 1 then Note.Re
  else if r % 7 = 2 then Note.Mi
  else if r % 7 = 3 then Note.Fa
  else if r % 7 = 4 then Note.Sol
  else if r % 7 = 5 then Note.La
  else Note.Si

/-- Rust `Sheet::parse_char` of src/text_to_midi.rs.  `rand` is the random oracle
stream and `k` the index of the next unconsumed draw; the result is `none`
exactly where the Rust code panics (the `self.states.last().unwrap()` in the
vowel-toggle arm).  The `print!` debug output is ignored.  Volume doubling is
modelled with plain `Nat` arithmetic: every volume reachable from the
constructors is at most `MAX_VOLUME = 16383`, so the `u16` multiplication
`volume * 2` never overflows. -/
def Sheet.parse_char (rand : Nat → Nat) (k : Nat) (sh : Sheet) (ch : Char) :
    Option (Sheet × Nat) :=
  match Note.from_char ch with
  | some note =>
    some (sh.pushState { sh.current_state with note := some note }, k)
  | none =>
    if ch = '+' then
      some (sh.pushState
        { sh.current_state.clearNote with volume :=
            if sh.current_state.clearNote.volume * 2 > State.MAX_VOLUME then State.MAX_VOLUME
            else sh.current_state.clearNote.volume * 2 }, k)
    else if ch = '-' then
      some (sh.pushState
        { sh.current_state.clearNote with volume := State.DEFAULT_VOLUME }, k)
    else if vowelToggle ch then
      -- instrument 125, note forced to Do, then the stash maneuver:
      -- `self.states.last().unwrap()` panics when no snapshot exists yet.
      match sh.states.getLast? with
      | none => none
      | some aux =>
        some ({ sh with
                current_state := aux,
                states :=
                  (sh.states ++
                    [{ sh.current_state.clearNote with instrument := 125, note := some Note.Do }])
                    ++ [aux] }, k)
    else if ch = Sheet.DEFAULT_R_PLUS then
      some (sh.pushState
        { sh.current_state.clearNote with octave :=
            if sh.current_state.clearNote.octave + 1 > State.MAX_OCTAVE then State.DEFAULT_OCTAVE
            else sh.current_state.clearNote.octave + 1 }, k)
    else if ch = Sheet.DEFAULT_R_MINUS then
      some (sh.pushState
        { sh.current_state.clearNote with octave := sh.current_state.clearNote.octave - 1 }, k)
    else if ch = Sheet.DEFAULT_BPM_PLUS then
      some (sh.pushState
        { sh.current_state.clearNote with bpm := min (sh.current_state.clearNote.bpm + 80) 255 }, k)
    else if ch = '?' then
      some (sh.pushState
        { sh.current_state.clearNote with note := some (randomNote (rand k)) }, k + 1)
    else if ch = Char.ofNat 10 then
      -- gen_range(0..=i8::MAX as u8)
      some (sh.pushState
        { sh.current_state.clearNote with instrument := rand k % 128 }, k + 1)
    else if ch = ';' then
      -- gen_range(1..State::MAX_BPM)
      some (sh.pushState
        { sh.current_state.clearNote with bpm := 1 + rand k % 254 }, k + 1)
    else
      some (sh.pushState sh.current_state.clearNote, k)

/-- The character loop of `Sheet::proccess_text`. -/
def parseChars (rand : Nat → Nat) : Nat → Sheet → List Char → Option (Sheet × Nat)
  | k, sh, [] => some (sh, k)
  | k, sh, c :: cs =>
    match Sheet.parse_char rand k sh c with
    | none => none
    | some (sh', k') => parseChars rand k' sh' cs

/-- Rust `Sheet::proccess_text`: fold the text to marker characters, then parse
each character in turn. -/
def Sheet.proccess_text (rand : Nat → Nat) (sh : Sheet) : Option Sheet :=
  (parseChars rand 0 sh sh.map_substring_to_char).map Prod.fst

/-- Text compilation entry point: `Sheet::new` followed by
`Sheet::proccess_text` (as the UI drives it). -/
def compile (rand : Nat → Nat) (bpm : Nat) (text : List Char) : Option Sheet :=
  (Sheet.new bpm text).proccess_text rand

/-- The MIDI pitch computed in `Sheet::process`:
`(note as u8) + 12 * (actual_state.octave + 1)` in `u8` arithmetic
(each operation reduced mod 256, as in an unchecked build; every state
reachable from parsing has octave at most 12, where no wrap occurs). -/
def pitchOf (s : State) (n : Note) : Nat :=
  (n.toU8 + 12 * ((s.octave + 1) % 256) % 256) % 256

/-- The loop body of `Sheet::process`, accumulating into `ret` with the
`current_state` reference carried along, exactly as the imperative loop
does. -/
def processGo (ret : List MIDIaction) (cur : State) : List State → List MIDIaction
  | [] => ret
  | s :: rest =>
    processGo
      (ret ++
        (if s.bpm ≠ cur.bpm then [MIDIaction.ChangeBPM s.bpm]
         else if s.instrument ≠ cur.instrument then
           [MIDIaction.ChangeInstrument s.instrument]
         else if s.volume ≠ cur.volume then [MIDIaction.ChangeVolume s.volume]
         else
           match s.note with
           | some Note.Pause => [MIDIaction.Pause s.bpm]
           | some n => [MIDIaction.PlayNote s.bpm (pitchOf s n)]
           | none => []))
      s rest

/-- Rust `Sheet::process` of src/text_to_midi.rs.  `self.states[0]` panics when the
snapshot list is empty, modelled by `none`.  Otherwise: the three startup
actions for the first snapshot, the loop over all snapshots, and the final
`EndTrack`. -/
def Sheet.process (sh : Sheet) : Option (List MIDIaction) :=
  match sh.states with
  | [] => none
  | s0 :: _ =>
    some (processGo
      [MIDIaction.ChangeBPM s0.bpm, MIDIaction.ChangeInstrument s0.instrument,
       MIDIaction.ChangeVolume s0.volume]
      s0 sh.states ++ [MIDIaction.EndTrack])

/-- Full pipeline: compile the text, then reduce the snapshots. -/
def run (rand : Nat → Nat) (bpm : Nat) (text : List Char) :
    Option (List MIDIaction) :=
  (compile rand bpm text).bind Sheet.process

/-- The MIDI pitches of the `PlayNote` actions of an action list. -/
def playedPitches (acts : List MIDIaction) : List Nat :=
  acts.filterMap fun a =>
    match a with
    | MIDIaction.PlayNote _ n => some n
    | _ => none

end TextToMidi

namespace NoteRs

/-- The `Note` enum of src/note.rs, whose explicit discriminants follow the
MIDI semitone convention: Do=0, Re=2, Mi=4, Fa=5, Sol=7, La=9, Si=11,
Pause=13. -/
inductive Note where
  | Do
  | Re
  | Mi
  | Fa
  | Sol
  | La
  | Si
  | Pause
deriving DecidableEq

/-- Rust `note as u8` for the src/note.rs `Note` (explicit discriminants). -/
def Note.toU8 : Note → Nat
  | .Do => 0
  | .Re => 2
  | .Mi => 4
  | .Fa => 5
  | .Sol => 7
  | .La => 9
  | .Si => 11
  | .Pause => 13

/-- Rust `Note::to_midi` of src/note.rs: `self as u8 + 12 * (1 + octave)` in `u8`
arithmetic (reduced mod 256 per operation; no wrap occurs at any octave
in 0..=12). -/
def Note.to_midi (n : Note) (octave : Nat) : Nat :=
  (n.toU8 + 12 * ((1 + octave) % 256) % 256) % 256

end NoteRs

namespace TimeStateMod

/-- Rust `ONE_MINUTE_IN_MICROSECONDS` of src/time_state.rs. -/
def ONE_MINUTE_IN_MICROSECONDS : Nat := 60000000

/-- The `TimeSignature` struct of src/time_state.rs. -/
structure TimeSignature where
  numerator : Nat
  denominator : Nat
deriving DecidableEq

/-- Rust `Default for TimeSignature`: 4/4. -/
def TimeSignature.defaultSig : TimeSignature :=
  { numerator := 4, denominator := 4 }

/-- Rust `TimeSignature::from_raw`: the raw denominator is a base-2 logarithm, so
the stored denominator is `2u8.pow(denominator)` (reduced mod 256 as a `u8`
value; the claims only exercise small exponents where no wrap occurs). -/
def TimeSignature.from_raw (numerator denominator : Nat) : TimeSignature :=
  { numerator := numerator, denominator := 2 ^ denominator % 256 }

/-- The `TimeState` struct of src/time_state.rs. -/
structure TimeState where
  time_signature : TimeSignature
  microsecspqn : Nat
  tpqn : Nat
deriving DecidableEq

/-- Rust `TimeState::mspqn_from_bpm`:
`u24::from_int_lossy((ONE_MINUTE_IN_MICROSECONDS * denominator) / (bpm * 4) as u32)`.
`bpm * 4` is a `u16` multiplication and `60_000_000 * denominator` a `u32`
multiplication; both are checked (a Rust debug build panics on overflow),
and the division panics in every build when the divisor `bpm * 4` is zero —
all three failure modes are modelled by `none`.  The `u24::from_int_lossy`
conversion keeps the low 24 bits, modelled by `% 2^24`. -/
def TimeState.mspqn_from_bpm (bpm denominator : Nat) : Option Nat :=
  if bpm * 4 ≤ 65535 ∧ ONE_MINUTE_IN_MICROSECONDS * denominator ≤ 4294967295 ∧ bpm ≠ 0
  then some ((ONE_MINUTE_IN_MICROSECONDS * denominator) / (bpm * 4) % 16777216)
  else none

/-- Rust `TimeState::set_mspqn`. -/
def TimeState.set_mspqn (ts : TimeState) (mspqn : Nat) : TimeState :=
  { ts with microsecspqn := mspqn }

/-- Rust `TimeState::set_time_signature`. -/
def TimeState.set_time_signature (ts : TimeState) (sig : TimeSignature) : TimeState :=
  { ts with time_signature := sig }

/-- Rust `TimeState::bpm`:
`((60_000_000 as f64 / microsecspqn as f64) * (denominator as f64 / 4)) as u16`.
The `f64` computation is modelled by its exact value: for the parameters the
claims exercise (denominator a power of two at most 64 and `microsecspqn`
below `2^24`), the correctly rounded `f64` division differs from the exact
quotient by less than the gap `1/microsecspqn` between the exact quotient
and any other multiple of `1/microsecspqn`, and scaling by the power of two
`denominator / 4` is exact, so the truncation `as u16` yields exactly
`⌊60_000_000 * denominator / (4 * microsecspqn)⌋`.  `as u16` saturates:
values at or above 65536 (including the infinity produced by a zero
divisor) become 65535. -/
def TimeState.bpm (ts : TimeState) : Nat :=
  if ts.microsecspqn = 0 then 65535
  else min 65535
    ((ONE_MINUTE_IN_MICROSECONDS * ts.time_signature.denominator) / (4 * ts.microsecspqn))

/-- Modelled from the spec: `State::D_BPM` (the default BPM of the revised
`State`, referenced by src/time_state.rs and src/user_interface.rs) is not
declared under src/; the spec says the time clock is "created with defaults
(120 BPM, 4/4, ...)". -/
def D_BPM : Nat := 120

/-- Rust `MidiAction::D_TPQN` of src/midi_action.rs. -/
def D_TPQN : Nat := 480

/-- Rust `Default for TimeState`: 4/4, `D_MSPQN = mspqn_from_bpm(State::D_BPM, 4)`
(which succeeds and yields 500000), `tpqn = MidiAction::D_TPQN`. -/
def TimeState.defaultState : TimeState :=
  { time_signature := TimeSignature.defaultSig
  , microsecspqn := (TimeState.mspqn_from_bpm D_BPM 4).getD 0
  , tpqn := D_TPQN }

end TimeStateMod

namespace MidiActionMod

open TimeStateMod

/-- The MIDI channel messages of the midly crate that src/midi_action.rs
constructs. -/
inductive MidiMessage where
  | NoteOn (key vel : Nat)
  | NoteOff (key vel : Nat)
  | ProgramChange (program : Nat)
  | Controller (controller value : Nat)
deriving DecidableEq

/-- The midly meta messages that src/midi_action.rs and src/play.rs use. -/
inductive MetaMessage where
  | TrackName
  | Tempo (mspqn : Nat)
  | TimeSignature (a b c d : Nat)
  | KeySignature (sharps : Int) (minor : Bool)
  | MidiPort (port : Nat)
  | EndOfTrack
deriving DecidableEq

/-- A midly track event kind: a channel message (live) or a meta message. -/
inductive TrackEventKind where
  | Midi (channel : Nat) (message : MidiMessage)
  | Meta (m : MetaMessage)
deriving DecidableEq

/-- A midly track event: tick delta plus kind. -/
structure TrackEvent where
  delta : Nat
  kind : TrackEventKind
deriving DecidableEq

/-- The `MidiAction` enum of src/midi_action.rs. -/
inductive MidiAction where
  | PlayNote (note : Nat)
  | ChangeInstrument (instrument : Nat)
  | ChangeVolume (volume : Nat)
  | Pause
  | ChangeBPM (bpm : Nat)
deriving DecidableEq

/-- Rust `MidiAction::D_CHANNEL`. -/
def D_CHANNEL : Nat := 0
/-- Rust `MidiAction::D_VELOCITY`: `u7::from_int_lossy((i8::MAX / 2) as u8)` = 63. -/
def D_VELOCITY : Nat := 63

/-- Rust `MidiAction::push_as_event` of src/midi_action.rs, appending the events
for one action to a track.  `u7::from_int_lossy`/`u4::from_int_lossy` keep
the low bits (`% 128` / `% 16`).  The `ChangeBPM` arm calls
`TimeState::mspqn_from_bpm(bpm, 4)`, which can fail (see that definition);
the failure propagates as `none`. -/
def push_as_event (a : MidiAction) (track : List TrackEvent) :
    Option (List TrackEvent) :=
  match a with
  | MidiAction.PlayNote note =>
    some (track ++
      [ { delta := 0
        , kind := TrackEventKind.Midi D_CHANNEL (MidiMessage.NoteOn (note % 128) D_VELOCITY) }
      , { delta := D_TPQN
        , kind := TrackEventKind.Midi D_CHANNEL (MidiMessage.NoteOff (note % 128) D_VELOCITY) } ])
  | MidiAction.ChangeInstrument instrument =>
    some (track ++
      [ { delta := 0
        , kind := TrackEventKind.Midi D_CHANNEL (MidiMessage.ProgramChange (instrument % 128)) } ])
  | MidiAction.ChangeVolume volume =>
    some (track ++
      [ { delta := 0
        , kind := TrackEventKind.Midi D_CHANNEL (MidiMessage.Controller 7 (volume % 128)) } ])
  | MidiAction.Pause =>
    some (track ++
      [ { delta := 0
        , kind := TrackEventKind.Midi D_CHANNEL (MidiMessage.Controller 123 0) }
      , { delta := D_TPQN
        , kind := TrackEventKind.Midi D_CHANNEL (MidiMessage.Controller 123 0) } ])
  | MidiAction.ChangeBPM bpm =>
    (TimeState.mspqn_from_bpm bpm 4).map fun m =>
      track ++ [ { delta := 0, kind := TrackEventKind.Meta (MetaMessage.Tempo m) } ]

end MidiActionMod

namespace PlayMod

open TimeStateMod MidiActionMod

/-- The midly header timing: metrical (ticks per quarter note) or SMPTE
timecode. -/
inductive Timing where
  | metrical (tpqn : Nat)
  | timecode (fps subframe : Nat)
deriving DecidableEq

/-- A midly `Smf`: header timing plus tracks. -/
structure Smf where
  timing : Timing
  tracks : List (List TrackEvent)
deriving DecidableEq

/-- One observable interaction with the MIDI device layer, in order of
occurrence: enumerating the output ports, opening a connection, or sending
a serialized channel message. -/
inductive DevEffect where
  | enumPorts
  | connect
  | send (channel : Nat) (message : MidiMessage)
deriving DecidableEq

/-- Rust `prepare_connection` of src/play.rs: enumerate the ports; zero ports is
an error; with one port connect to it; with several, read a selection `sel`
and connect if it is a valid index.  `connectOk` says whether
`midi_out.connect` succeeds.  The returned trace lists the device
interactions that happened. -/
def prepare_connection (ports sel : Nat) (connectOk : Bool) :
    List DevEffect × Except String Unit :=
  if ports = 0 then ([DevEffect.enumPorts], Except.error "No output port found.")
  else if ports = 1 ∨ sel < ports then
    (if connectOk then ([DevEffect.enumPorts, DevEffect.connect], Except.ok ())
     else ([DevEffect.enumPorts], Except.error "couldnt connect"))
  else ([DevEffect.enumPorts], Except.error "Invalid output port selected.")

/-- The event loop of `play_file`: live (channel) events are serialized and
sent; tempo and time-signature meta events update the `TimeState` used for
the (unmodelled, real-time) sleeps; other meta events are skipped. -/
def playLoop (ts : TimeState) : List TrackEvent → List DevEffect
  | [] => []
  | e :: es =>
    match e.kind with
    | TrackEventKind.Midi ch msg => DevEffect.send ch msg :: playLoop ts es
    | TrackEventKind.Meta (MetaMessage.Tempo m) => playLoop (ts.set_mspqn m) es
    | TrackEventKind.Meta (MetaMessage.TimeSignature n d _ _) =>
      playLoop (ts.set_time_signature (TimeSignature.from_raw n d)) es
    | TrackEventKind.Meta _ => playLoop ts es

/-- Rust `play_file` of src/play.rs.  It first calls `prepare_connection` (the
`?` on its result), only then matches on `file.header.timing`, returning a
format error for `Timing::Timecode`; for metrical timing it drives the event
loop over `file.tracks[0]` (an indexing panic when there is no track,
modelled by a `none` result).  The first component is the trace of device
interactions in order; the second is the returned `Result`, with `none`
standing for a panic. -/
def play_file (ports sel : Nat) (connectOk : Bool) (file : Smf) :
    List DevEffect × Option (Except String Unit) :=
  match prepare_connection ports sel connectOk with
  | (tr, Except.error e) => (tr, some (Except.error e))
  | (tr, Except.ok _) =>
    match file.timing with
    | Timing.timecode _ _ =>
      (tr, some (Except.error "The timing of the received file is not coded with metrical."))
    | Timing.metrical tpqn =>
      match file.tracks with
      | [] => (tr, none)
      | t0 :: _ =>
        (tr ++ playLoop { TimeState.defaultState with tpqn := tpqn } t0,
         some (Except.ok ()))

end PlayMod

namespace TextToMidi

/-!  Claim-side definitions, written from the spec's words, to be compared
with the translations above. -/

/-- From the spec's reducer description: for one snapshot, "emit at most ONE
action ..., corresponding to the highest-priority attribute that differs
from current" in the fixed order bpm, instrument, volume; "if none of
bpm/instrument/volume differ and a note is present, emit PlayNote or Pause
accordingly". -/
def specEmit (cur s : State) : List MIDIaction :=
  if s.bpm ≠ cur.bpm then [MIDIaction.ChangeBPM s.bpm]
  else if s.instrument ≠ cur.instrument then [MIDIaction.ChangeInstrument s.instrument]
  else if s.volume ≠ cur.volume then [MIDIaction.ChangeVolume s.volume]
  else
    match s.note with
    | some Note.Pause => [MIDIaction.Pause s.bpm]
    | some n => [MIDIaction.PlayNote s.bpm (pitchOf s n)]
    | none => []

/-- From the spec's reducer description: unconditionally emit the three
startup actions for the first snapshot, fold over all snapshots with a
"current" reference initialised to the first (collecting each snapshot's
emission and updating "current"), then append the end-of-sequence action. -/
def reducerSpec (s0 : State) (ss : List State) : List MIDIaction :=
  [MIDIaction.ChangeBPM s0.bpm, MIDIaction.ChangeInstrument s0.instrument,
   MIDIaction.ChangeVolume s0.volume]
    ++ (ss.foldl (fun acc s => (s, acc.2 ++ specEmit acc.1 s)) (s0, ([] : List MIDIaction))).2
    ++ [MIDIaction.EndTrack]

/-- The concatenation of the per-snapshot emissions, with the "current"
reference carried along. -/
def emissions (cur : State) : List State → List MIDIaction
  | [] => []
  | s :: rest => specEmit cur s ++ emissions s rest

/-- The loop of `Sheet::process` accumulates exactly the per-snapshot
emissions `specEmit`. -/
theorem processGo_eq_emissions (ss : List State) :
    ∀ (ret : List MIDIaction) (cur : State),
    processGo ret cur ss = ret ++ emissions cur ss := by
  induction ss with
  | nil => intro ret cur; simp [processGo, emissions]
  | cons s rest ih =>
    intro ret cur
    show processGo (ret ++ specEmit cur s) s rest = _
    rw [ih]
    simp [emissions]

/-- The spec-side fold collects the same per-snapshot emissions. -/
theorem foldl_eq_emissions (ss : List State) :
    ∀ (cur : State) (acc : List MIDIaction),
    (ss.foldl (fun acc s => (s, acc.2 ++ specEmit acc.1 s)) (cur, acc)).2 =
      acc ++ emissions cur ss := by
  induction ss with
  | nil => intro cur acc; simp [emissions]
  | cons s rest ih =>
    intro cur acc
    show (rest.foldl _ (s, acc ++ specEmit cur s)).2 = _
    rw [ih]
    simp [emissions]

/-- Each per-snapshot emission is at most one action long. -/
theorem specEmit_length_le_one (cur s : State) : (specEmit cur s).length ≤ 1 := by
  unfold specEmit
  split
  · simp
  · split
    · simp
    · split
      · simp
      · split <;> simp

/-- The per-snapshot emission never contains the end-of-sequence action. -/
theorem endTrack_not_mem_specEmit (cur s : State) :
    MIDIaction.EndTrack ∉ specEmit cur s := by
  unfold specEmit
  split
  · simp
  · split
    · simp
    · split
      · simp
      · split <;> simp

/-- Whether a character is none of the tokens `Sheet::parse_char`
recognises (note letters and space included). -/
def unrecognized (c : Char) : Bool :=
  (Note.from_char c).isNone && !(c = '+') && !(c = '-') && !vowelToggle c &&
    !(c = Sheet.DEFAULT_R_PLUS) && !(c = Sheet.DEFAULT_R_MINUS) &&
    !(c = Sheet.DEFAULT_BPM_PLUS) && !(c = '?') && !(c = Char.ofNat 10) && !(c = ';')

/-- Whether the non-empty pattern `p :: ps` occurs as a substring. -/
def occursIn (p : Char) (ps : List Char) : List Char → Bool
  | [] => false
  | c :: cs => (stripPat (p :: ps) (c :: cs)).isSome || occursIn p ps cs

/-- Whether no vowel-toggle character immediately follows a note character,
with `prev` the character preceding the list. -/
def echoFree (prev : Char) : List Char → Bool
  | [] => true
  | c :: cs => !((Note.from_char prev).isSome && vowelToggle c) && echoFree c cs

/-- The replacement scan leaves a string without an occurrence of the
pattern unchanged, whatever the fuel. -/
theorem replaceAllGo_of_not_occursIn (p : Char) (ps repl : List Char) :
    ∀ (s : List Char) (fuel : Nat), occursIn p ps s = false →
    replaceAllGo p ps repl fuel s = s := by
  intro s
  induction s with
  | nil => intro fuel _; cases fuel <;> rfl
  | cons c cs ih =>
    intro fuel h
    simp only [occursIn, Bool.or_eq_false_iff] at h
    have hnone : stripPat (p :: ps) (c :: cs) = none := by
      cases hx : stripPat (p :: ps) (c :: cs)
      · rfl
      · rw [hx] at h
        simp at h
    cases fuel with
    | zero => rfl
    | succ fuel =>
      rw [replaceAllGo, hnone]
      show c :: replaceAllGo p ps repl fuel cs = c :: cs
      rw [ih fuel h.2]

/-- Rust `str::replace` leaves a string without an occurrence of the pattern
unchanged. -/
theorem replaceAll_of_not_occursIn (p : Char) (ps repl : List Char) :
    ∀ s : List Char, occursIn p ps s = false → replaceAll p ps repl s = s :=
  fun s h => replaceAllGo_of_not_occursIn p ps repl s s.length h

/-- The six concrete vowel-toggle characters. -/
theorem vowelToggle_cases (c : Char) (h : vowelToggle c = true) :
    c = 'o' ∨ c = 'O' ∨ c = 'I' ∨ c = 'i' ∨ c = 'u' ∨ c = 'U' := by
  simp only [vowelToggle, Bool.or_eq_true, decide_eq_true_eq] at h
  tauto

/-- On a vowel-toggle character, `Sheet::parse_char` reduces to the
stash-maneuver arm. -/
theorem parse_char_vowel (rand : Nat → Nat) (k : Nat) (sh : Sheet) (c : Char)
    (hv : vowelToggle c = true) :
    Sheet.parse_char rand k sh c =
      match sh.states.getLast? with
      | none => none
      | some aux =>
        some ({ sh with
                current_state := aux,
                states :=
                  (sh.states ++
                    [{ sh.current_state.clearNote with instrument := 125, note := some Note.Do }])
                    ++ [aux] }, k) := by
  rcases vowelToggle_cases c hv with h | h | h | h | h | h <;> subst h <;> rfl

/-- On anything but a vowel-toggle character, `Sheet::parse_char`
succeeds. -/
theorem parse_char_isSome_of_not_vowel (rand : Nat → Nat) (k : Nat) (sh : Sheet)
    (c : Char) (hv : vowelToggle c = false) :
    (Sheet.parse_char rand k sh c).isSome = true := by
  unfold Sheet.parse_char
  repeat' split
  all_goals simp_all

/-- Rust `Sheet::parse_char` panics exactly when it scans a vowel-toggle
character while no snapshot has been produced yet. -/
theorem parse_char_eq_none_iff (rand : Nat → Nat) (k : Nat) (sh : Sheet) (c : Char) :
    Sheet.parse_char rand k sh c = none ↔ vowelToggle c = true ∧ sh.states = [] := by
  constructor
  · intro h
    by_cases hv : vowelToggle c = true
    · refine ⟨hv, ?_⟩
      rw [parse_char_vowel rand k sh c hv] at h
      cases hl : sh.states.getLast? with
      | none => exact List.getLast?_eq_none_iff.mp hl
      | some aux => rw [hl] at h; cases h
    · have := parse_char_isSome_of_not_vowel rand k sh c (by simpa using hv)
      rw [h] at this
      cases this
  · rintro ⟨hv, hs⟩
    rw [parse_char_vowel rand k sh c hv, hs]
    rfl

/-- Every successful `Sheet::parse_char` step leaves a non-empty snapshot
list. -/
theorem parse_char_states_ne_nil (rand : Nat → Nat) (k : Nat) (sh : Sheet)
    (c : Char) (res : Sheet × Nat) (h : Sheet.parse_char rand k sh c = some res) :
    res.1.states ≠ [] := by
  unfold Sheet.parse_char at h
  repeat' split at h
  all_goals cases h
  all_goals simp [Sheet.pushState]

/-- From a sheet with at least one snapshot, the whole character loop
succeeds. -/
theorem parseChars_isSome (rand : Nat → Nat) (cs : List Char) :
    ∀ (k : Nat) (sh : Sheet), sh.states ≠ [] →
    (parseChars rand k sh cs).isSome = true := by
  induction cs with
  | nil => intro k sh _; rfl
  | cons c cs ih =>
    intro k sh hs
    have hnone : Sheet.parse_char rand k sh c ≠ none := by
      intro hn
      exact hs ((parse_char_eq_none_iff rand k sh c).mp hn).2
    cases hres : Sheet.parse_char rand k sh c with
    | none => exact absurd hres hnone
    | some res =>
      have hne := parse_char_states_ne_nil rand k sh c res hres
      simp only [parseChars, hres]
      exact ih res.2 res.1 hne

/-- The vowel-rewriting scan leaves an echo-free string unchanged. -/
theorem echoScan_of_echoFree (s : List Char) : ∀ prev : Char,
    echoFree prev s = true → echoScan prev s = s := by
  induction s with
  | nil => intro _ _; rfl
  | cons c cs ih =>
    intro prev h
    simp only [echoFree, Bool.and_eq_true] at h
    have hc : ((Note.from_char prev).isSome && vowelToggle c) = false := by
      cases hb : ((Note.from_char prev).isSome && vowelToggle c)
      · rfl
      · have h1 := h.1
        rw [hb] at h1
        exact absurd h1 (by decide)
    rw [echoScan, hc]
    simp [ih c h.2]

end TextToMidi

open TextToMidi TimeStateMod MidiActionMod PlayMod

/-- The La-pitch snapshot produced for the letter `'A'` from the default
starting state. -/
def laSnapshot : State :=
  { bpm := 80, instrument := 0, octave := 4, volume := 100, note := some Note.La }

/-- C1 counterexample: compiling `"Ao"` produces exactly TWO snapshots, not
three, and none of them carries the telephone instrument 125 — the token
folding has already rewritten the vowel into a second `'A'`. -/
theorem c1_counterexample :
    (compile (fun _ => 0) 80 "Ao".toList).map (fun sh => sh.states.length) = some 2 ∧
    (compile (fun _ => 0) 80 "Ao".toList).map
        (fun sh => sh.states.countP (fun s => s.instrument = 125)) = some 0 := by
  constructor
  · rfl
  · rfl

/-- C1 (corrected): for the input `"Ao"` the token-folding pass rewrites the
vowel-toggle character into the preceding note letter, so the scanner sees
`"AA"`; compilation produces exactly two snapshots, both equal to the
La-pitch snapshot (instrument, octave, volume and bpm unchanged from the
defaults); no telephone-instrument snapshot and no stash maneuver occurs. -/
theorem c1_amended : ∀ rand : Nat → Nat,
    (Sheet.new 80 "Ao".toList).map_substring_to_char = "AA".toList ∧
    compile rand 80 "Ao".toList =
      some { bpm := 80
           , current_state := laSnapshot
           , states := [laSnapshot, laSnapshot]
           , text := "Ao".toList } :=
  fun _ => ⟨rfl, rfl⟩

/-- C1 witness: the amended statement at a concrete random oracle. -/
theorem c1_amended_witness :
    (Sheet.new 80 "Ao".toList).map_substring_to_char = "AA".toList ∧
    compile (fun _ => 0) 80 "Ao".toList =
      some { bpm := 80
           , current_state := laSnapshot
           , states := [laSnapshot, laSnapshot]
           , text := "Ao".toList } :=
  c1_amended (fun _ => 0)

/-- C4 (code bug): the reducer `Sheet::process` computes pitches from the
local text_to_midi.rs `Note` enum whose discriminants are the declaration
indices Do=0, Re=1, ..., Si=6, so `"CDEFGAB"` at the default octave 4 yields
the chromatic pitches 60..66; the semitone pitch classes the claim (and
src/note.rs, via `Note::to_midi`) prescribe would give 60, 62, 64, 65, 67,
69, 71 — already at `'D'` the code emits 61 where the claim requires 62. -/
theorem c4_divergence :
    (run (fun _ => 0) 80 "CDEFGAB".toList).map playedPitches =
      some [60, 61, 62, 63, 64, 65, 66] ∧
    [NoteRs.Note.Do.to_midi 4, NoteRs.Note.Re.to_midi 4, NoteRs.Note.Mi.to_midi 4,
     NoteRs.Note.Fa.to_midi 4, NoteRs.Note.Sol.to_midi 4, NoteRs.Note.La.to_midi 4,
     NoteRs.Note.Si.to_midi 4] = [60, 62, 64, 65, 67, 69, 71] ∧
    (61 : Nat) ≠ 62 := by
  refine ⟨rfl, rfl, by decide⟩

/-- C5 counterexample: with the compiler's default starting state
(`DEFAULT_BPM = 80`), `"BPM+R+R-"` reduces to `ChangeBPM 160` (80 saturating
+ 80), not `ChangeBPM 200` as the claim states. -/
theorem c5_counterexample :
    run (fun _ => 0) 80 "BPM+R+R-".toList =
      some [MIDIaction.ChangeBPM 160, MIDIaction.ChangeInstrument 0,
            MIDIaction.ChangeVolume 100, MIDIaction.EndTrack] ∧
    run (fun _ => 0) 80 "BPM+R+R-".toList ≠
      some [MIDIaction.ChangeBPM 200, MIDIaction.ChangeInstrument 0,
            MIDIaction.ChangeVolume 100, MIDIaction.EndTrack] := by
  refine ⟨rfl, by decide⟩

/-- C5 (corrected): `"BPM+R+R-"` folds to the three marker characters in
order, and with the compiler's default starting state (bpm 80) reduces to
exactly `[ChangeBPM 160, ChangeInstrument 0, ChangeVolume 100]` — no note
actions — followed only by the end-of-sequence action. -/
theorem c5_amended : ∀ rand : Nat → Nat,
    (Sheet.new 80 "BPM+R+R-".toList).map_substring_to_char = ['ß', '東', '世'] ∧
    run rand 80 "BPM+R+R-".toList =
      some [MIDIaction.ChangeBPM 160, MIDIaction.ChangeInstrument 0,
            MIDIaction.ChangeVolume 100, MIDIaction.EndTrack] :=
  fun _ => ⟨rfl, rfl⟩

/-- C5 witness: the amended statement at a concrete random oracle. -/
theorem c5_amended_witness :
    (Sheet.new 80 "BPM+R+R-".toList).map_substring_to_char = ['ß', '東', '世'] ∧
    run (fun _ => 1) 80 "BPM+R+R-".toList =
      some [MIDIaction.ChangeBPM 160, MIDIaction.ChangeInstrument 0,
            MIDIaction.ChangeVolume 100, MIDIaction.EndTrack] :=
  c5_amended (fun _ => 1)

/-- C7 counterexample: `"Aoo"` contains none of `"BPM+"`, `"R+"`, `"R-"`,
yet token folding maps it to `"AAo"` and folding again gives `"AAA"` — the
fold is not idempotent on such inputs. -/
theorem c7_counterexample :
    occursIn 'B' ['P', 'M', '+'] "Aoo".toList = false ∧
    occursIn 'R' ['+'] "Aoo".toList = false ∧
    occursIn 'R' ['-'] "Aoo".toList = false ∧
    (Sheet.new 80 ((Sheet.new 80 "Aoo".toList).map_substring_to_char)).map_substring_to_char ≠
      (Sheet.new 80 "Aoo".toList).map_substring_to_char := by
  refine ⟨rfl, rfl, rfl, by decide⟩

/-- C7 (corrected): token folding is idempotent (indeed the identity) on
inputs that are free of `"BPM+"`, `"R+"`, `"R-"` and in which no
vowel-toggle character immediately follows a note character; without the
echo-freeness condition the fold can duplicate a note letter and thereby
create a fresh `"BPM+"` occurrence or a fresh note-vowel pair, as the
counterexample shows. -/
theorem c7_amended : ∀ (bpm : Nat) (text : List Char),
    occursIn 'B' ['P', 'M', '+'] text = false →
    occursIn 'R' ['+'] text = false →
    occursIn 'R' ['-'] text = false →
    echoFree (Char.ofNat 0) text = true →
    (Sheet.new bpm ((Sheet.new bpm text).map_substring_to_char)).map_substring_to_char =
      (Sheet.new bpm text).map_substring_to_char := by
  intro bpm text h1 h2 h3 h4
  have hid : (Sheet.new bpm text).map_substring_to_char = text := by
    show echoScan (Char.ofNat 0)
      (replaceAll 'R' ['-'] [Sheet.DEFAULT_R_MINUS]
        (replaceAll 'R' ['+'] [Sheet.DEFAULT_R_PLUS]
          (replaceAll 'B' ['P', 'M', '+'] [Sheet.DEFAULT_BPM_PLUS] text))) = text
    rw [replaceAll_of_not_occursIn 'B' ['P', 'M', '+'] [Sheet.DEFAULT_BPM_PLUS] text h1,
        replaceAll_of_not_occursIn 'R' ['+'] [Sheet.DEFAULT_R_PLUS] text h2,
        replaceAll_of_not_occursIn 'R' ['-'] [Sheet.DEFAULT_R_MINUS] text h3,
        echoScan_of_echoFree text (Char.ofNat 0) h4]
  rw [hid]
  exact hid

/-- C7 witness: the amended statement on the echo-free input `"abc"`. -/
theorem c7_amended_witness :
    (Sheet.new 80 ((Sheet.new 80 "abc".toList).map_substring_to_char)).map_substring_to_char =
      (Sheet.new 80 "abc".toList).map_substring_to_char :=
  c7_amended 80 "abc".toList (by decide) (by decide) (by decide) (by decide)

/-- C10: `Sheet::process` reads `self.states[0]` unconditionally, so it
panics on every sheet whose snapshot list is empty — in particular on a
sheet freshly built by `Sheet::new`, since `process` never invokes the
text-processing step itself. -/
theorem c10_process_empty :
    (∀ (bpm : Nat) (text : List Char), (Sheet.new bpm text).process = none) ∧
    (∀ sh : Sheet, sh.states = [] → sh.process = none) := by
  constructor
  · intro bpm text
    rfl
  · intro sh h
    unfold Sheet.process
    rw [h]

/-- C10 witness: the empty-snapshot failure at concrete sheets. -/
theorem c10_witness :
    (Sheet.new 80 []).process = none ∧ (Sheet.new 5 ['x']).process = none :=
  ⟨c10_process_empty.1 80 [], c10_process_empty.2 (Sheet.new 5 ['x']) rfl⟩

/-- C2: on every non-empty snapshot list, `Sheet::process` equals the
spec-described reducer — the three startup actions carrying the first
snapshot's values, a fold over all snapshots with "current" initialised to
the first, emitting per snapshot the highest-priority differing attribute
among bpm, instrument, volume, else the note action when a note is present,
and a single final end-of-sequence action; each per-snapshot emission has at
most one action and never the end-of-sequence action. -/
theorem c2_reducer (sh : Sheet) (s0 : State) (rest : List State)
    (h : sh.states = s0 :: rest) :
    sh.process = some (reducerSpec s0 sh.states) ∧
    (∀ cur s : State, (specEmit cur s).length ≤ 1) ∧
    (∀ cur s : State, MIDIaction.EndTrack ∉ specEmit cur s) := by
  refine ⟨?_, specEmit_length_le_one, endTrack_not_mem_specEmit⟩
  obtain ⟨b, cst, sts, tx⟩ := sh
  simp only [Sheet.states] at h
  subst h
  show some (processGo _ s0 (s0 :: rest) ++ [MIDIaction.EndTrack]) = _
  rw [processGo_eq_emissions]
  unfold reducerSpec
  rw [foldl_eq_emissions]
  simp

/-- C2 witness: the reducer characterisation at a concrete one-snapshot
sheet. -/
theorem c2_witness :
    (⟨80, State.defaultState, [State.defaultState], []⟩ : Sheet).process =
      some (reducerSpec State.defaultState [State.defaultState]) ∧
    (∀ cur s : State, (specEmit cur s).length ≤ 1) ∧
    (∀ cur s : State, MIDIaction.EndTrack ∉ specEmit cur s) :=
  c2_reducer ⟨80, State.defaultState, [State.defaultState], []⟩
    State.defaultState [] rfl

/-- C3 counterexample: compiling the single standalone vowel-toggle
character `"o"` panics (the `unwrap` of `states.last()` on an empty list),
so the compiler is not total; and the unrecognized character `'!'` after
`"A"` appends a snapshot whose note has been cleared to `none`, not a
snapshot identical to the current state. -/
theorem c3_counterexample :
    compile (fun _ => 0) 80 "o".toList = none ∧
    (compile (fun _ => 0) 80 "A!".toList).map (fun sh => sh.states.map State.note) =
      some [some Note.La, none] := by
  exact ⟨rfl, rfl⟩

/-- C3 (corrected): compilation succeeds exactly when the folded text does
not begin with a vowel-toggle character (in particular it fails on `"o"`);
and an unrecognized character is a no-op except that it clears the note:
it appends a snapshot equal to the current state with the note field set to
`none`. -/
theorem c3_amended :
    (∀ (rand : Nat → Nat) (bpm : Nat) (text : List Char),
      ((compile rand bpm text).isSome = true ↔
        ∀ c, ((Sheet.new bpm text).map_substring_to_char).head? = some c →
          vowelToggle c = false)) ∧
    (∀ (rand : Nat → Nat) (k : Nat) (sh : Sheet) (c : Char),
      unrecognized c = true →
      Sheet.parse_char rand k sh c =
        some (sh.pushState sh.current_state.clearNote, k)) := by
  constructor
  · intro rand bpm text
    have hstates : (Sheet.new bpm text).states = [] := rfl
    unfold compile Sheet.proccess_text
    cases hfold : (Sheet.new bpm text).map_substring_to_char with
    | nil =>
      constructor
      · intro _ c hc
        cases hc
      · intro _
        rfl
    | cons c0 cs =>
      constructor
      · intro hs c hc
        have hc0 : c0 = c := by
          simp only [List.head?] at hc
          injection hc
        subst hc0
        by_contra hv'
        have hv : vowelToggle c0 = true := by simpa using hv'
        have hn : Sheet.parse_char rand 0 (Sheet.new bpm text) c0 = none :=
          (parse_char_eq_none_iff rand 0 (Sheet.new bpm text) c0).mpr ⟨hv, hstates⟩
        simp only [parseChars, hn] at hs
        cases hs
      · intro hall
        have hv : vowelToggle c0 = false := hall c0 rfl
        have h1 := parse_char_isSome_of_not_vowel rand 0 (Sheet.new bpm text) c0 hv
        cases hres : Sheet.parse_char rand 0 (Sheet.new bpm text) c0 with
        | none =>
          rw [hres] at h1
          cases h1
        | some res =>
          simp only [parseChars, hres]
          have h2 := parseChars_isSome rand cs res.2 res.1
            (parse_char_states_ne_nil rand 0 (Sheet.new bpm text) c0 res hres)
          cases hrec : parseChars rand res.2 res.1 cs with
          | none =>
            rw [hrec] at h2
            cases h2
          | some out =>
            rfl
  · intro rand k sh c hu
    simp only [unrecognized, Bool.and_eq_true, Option.isNone_iff_eq_none,
      Bool.not_eq_true', decide_eq_false_iff_not] at hu
    obtain ⟨⟨⟨⟨⟨⟨⟨⟨⟨h0, h1⟩, h2⟩, h3⟩, h4⟩, h5⟩, h6⟩, h7⟩, h8⟩, h9⟩ := hu
    unfold Sheet.parse_char
    rw [h0, if_neg h1, if_neg h2, if_neg (by simp [h3]), if_neg h4, if_neg h5,
      if_neg h6, if_neg h7, if_neg h8, if_neg h9]

/-- C3 witness: totality on `"A"` and the note-clearing no-op for `'!'`. -/
theorem c3_amended_witness :
    (compile (fun _ => 0) 80 "A".toList).isSome = true ∧
    Sheet.parse_char (fun _ => 0) 0 (Sheet.new 80 []) '!' =
      some ((Sheet.new 80 []).pushState (Sheet.new 80 []).current_state.clearNote, 0) :=
  ⟨(c3_amended.1 (fun _ => 0) 80 "A".toList).mpr (by
      intro c hc
      simp only [List.head?] at hc
      have : 'A' = c := by
        have h1 : (Sheet.new 80 "A".toList).map_substring_to_char = ['A'] := rfl
        rw [h1] at hc
        injection hc
      subst this
      rfl),
   c3_amended.2 (fun _ => 0) 0 (Sheet.new 80 []) '!' rfl⟩

/-- C6 counterexample: playing a timecode-timed file with one available
port returns the format error, but only AFTER the device has been
interacted with — the trace already contains the port enumeration and the
opened connection. -/
theorem c6_counterexample :
    play_file 1 0 true { timing := Timing.timecode 0 0, tracks := [[]] } =
      ([DevEffect.enumPorts, DevEffect.connect],
       some (Except.error "The timing of the received file is not coded with metrical.")) ∧
    DevEffect.connect ∈
      (play_file 1 0 true { timing := Timing.timecode 0 0, tracks := [[]] }).1 := by
  refine ⟨rfl, by decide⟩

/-- C6 (corrected): for every track whose header timing is not metrical,
`play_file` returns the format error and never sends a message to the
device — but the error is detected only after device interaction: the ports
are enumerated and the connection is opened before the timing check, as the
returned trace records. -/
theorem c6_amended (ports sel : Nat) (tracks : List (List TrackEvent))
    (fps sub : Nat) (hsel : ports = 1 ∨ sel < ports) (hp0 : ports ≠ 0) :
    play_file ports sel true { timing := Timing.timecode fps sub, tracks := tracks } =
      ([DevEffect.enumPorts, DevEffect.connect],
       some (Except.error "The timing of the received file is not coded with metrical.")) := by
  unfold play_file prepare_connection
  rw [if_neg hp0, if_pos hsel]
  rfl

/-- C6 witness: the amended statement at one port and a trackless timecode
file. -/
theorem c6_amended_witness :
    play_file 1 0 true { timing := Timing.timecode 0 0, tracks := [] } =
      ([DevEffect.enumPorts, DevEffect.connect],
       some (Except.error "The timing of the received file is not coded with metrical.")) :=
  c6_amended 1 0 [] 0 0 (Or.inl rfl) (by decide)

/-- C8 counterexample: for bpm 1 and denominator 64 (both within the
claim's "every valid bpm ≥ 1, every power-of-two denominator"), the raw
quotient 960000000 exceeds 2^24, the `u24::from_int_lossy` truncation keeps
3698688, and converting back with the same denominator yields 259 — not 1
within any rounding tolerance. -/
theorem c8_counterexample :
    TimeState.mspqn_from_bpm 1 64 = some 3698688 ∧
    TimeState.bpm { time_signature := { numerator := 4, denominator := 64 },
                    microsecspqn := 3698688, tpqn := 480 } = 259 ∧
    (259 : Nat) ≠ 1 := by
  refine ⟨rfl, rfl, by decide⟩

/-- C8 (corrected): the two tempo formulas are mutually inverse — exactly,
not merely within rounding — whenever the conversion stays inside the
machine ranges: bpm at least 1 with `4·bpm² ≤ 60000000·d` (so the flooring
meets `⌊K/⌊K/b⌋⌋ = b`), no `u16`/`u32` multiplication overflow, and a raw
quotient below `2^24` (so `u24::from_int_lossy` does not truncate). -/
theorem c8_amended (b d num tq : Nat) (hb : 1 ≤ b)
    (hsq : 4 * b * b ≤ 60000000 * d) (hd : 60000000 * d ≤ 4294967295)
    (hb4 : b * 4 ≤ 65535) (hlt : (60000000 * d) / (b * 4) < 16777216) :
    ∃ μ, TimeState.mspqn_from_bpm b d = some μ ∧
      TimeState.bpm { time_signature := { numerator := num, denominator := d },
                      microsecspqn := μ, tpqn := tq } = b := by
  refine ⟨(60000000 * d) / (b * 4), ?_, ?_⟩
  · unfold TimeState.mspqn_from_bpm ONE_MINUTE_IN_MICROSECONDS
    rw [if_pos ⟨hb4, hd, by omega⟩]
    exact congrArg some (Nat.mod_eq_of_lt hlt)
  · have hq_ge_b : b ≤ (60000000 * d) / (b * 4) := by
      refine (Nat.le_div_iff_mul_le (by omega)).mpr ?_
      calc b * (b * 4) = 4 * b * b := by ring
        _ ≤ 60000000 * d := hsq
    have hne : (60000000 * d) / (b * 4) ≠ 0 := by omega
    simp only [TimeState.bpm, ONE_MINUTE_IN_MICROSECONDS]
    rw [if_neg hne]
    have hdiv : (60000000 * d) / (4 * ((60000000 * d) / (b * 4))) = b := by
      refine Nat.div_eq_of_lt_le ?_ ?_
      · calc b * (4 * ((60000000 * d) / (b * 4)))
            = (60000000 * d) / (b * 4) * (b * 4) := by ring
          _ ≤ 60000000 * d := Nat.div_mul_le_self _ _
      · have hmod := Nat.div_add_mod (60000000 * d) (b * 4)
        have hr : 60000000 * d % (b * 4) < b * 4 := Nat.mod_lt _ (by omega)
        have h2 : b * 4 ≤ 4 * ((60000000 * d) / (b * 4)) := by
          calc b * 4 ≤ (60000000 * d) / (b * 4) * 4 :=
                Nat.mul_le_mul_right 4 hq_ge_b
            _ = 4 * ((60000000 * d) / (b * 4)) := by ring
        have h3 : (b + 1) * (4 * ((60000000 * d) / (b * 4)))
            = b * 4 * ((60000000 * d) / (b * 4)) + 4 * ((60000000 * d) / (b * 4)) := by
          ring
        have h4 : b * 4 * ((60000000 * d) / (b * 4))
            = (b * 4) * ((60000000 * d) / (b * 4)) := by ring
        linarith [hmod, hr, h2, h3, h4]
    rw [hdiv]
    exact min_eq_right (by omega)

/-- C8 witness: the exact round trip at the repository's own test point,
bpm 120 in 4/4 (mspqn 500000). -/
theorem c8_amended_witness :
    ∃ μ, TimeState.mspqn_from_bpm 120 4 = some μ ∧
      TimeState.bpm { time_signature := { numerator := 4, denominator := 4 },
                      microsecspqn := μ, tpqn := 480 } = 120 :=
  c8_amended 120 4 4 480 (by decide) (by decide) (by decide) (by decide) (by decide)

/-- C9: `mspqn_from_bpm(bpm, 4)` (as `push_as_event` invokes it for a tempo
meta-event) is well-defined exactly for 1 ≤ bpm ≤ 16383: at bpm 0 the
divisor `bpm * 4` is zero and the division panics, so encoding
`ChangeBPM(0)` is not total, and beyond 16383 the `u16` multiplication
`bpm * 4` overflows. -/
theorem c9_precondition :
    (∀ b : Nat, b ≤ 65535 →
      ((TimeState.mspqn_from_bpm b 4).isSome = true ↔ 1 ≤ b ∧ b ≤ 16383)) ∧
    TimeState.mspqn_from_bpm 0 4 = none ∧
    push_as_event (MidiAction.ChangeBPM 0) [] = none := by
  refine ⟨?_, rfl, rfl⟩
  intro b hb
  unfold TimeState.mspqn_from_bpm ONE_MINUTE_IN_MICROSECONDS
  by_cases hc : b * 4 ≤ 65535 ∧ 60000000 * 4 ≤ 4294967295 ∧ b ≠ 0
  · rw [if_pos hc]
    simp only [Option.isSome_some, true_iff]
    constructor
    · omega
    · omega
  · rw [if_neg hc]
    simp only [Option.isSome_none]
    constructor
    · intro hfalse
      cases hfalse
    · rintro ⟨h1, h2⟩
      exact (hc ⟨by omega, by norm_num, by omega⟩).elim

/-- C9 witness: the precondition instantiated at bpm 80 (in range) and the
closed failure facts. -/
theorem c9_witness :
    ((TimeState.mspqn_from_bpm 80 4).isSome = true ↔ 1 ≤ 80 ∧ 80 ≤ 16383) :=
  c9_precondition.1 80 (by decide)
